import Mathlib

/-!
Verification of the enseada OAuth2 authorization server core against its
natural-language specification. Rust source files are shallowly embedded:
pure functions become Lean functions, I/O-performing handlers become
functions of the results of their backend calls, panics become `Option.none`,
and fallible operations return `Except`.
-/

namespace Enseada

/-- Splits a character list at the first colon, returning the part before and
the part after. Returns `none` when no colon occurs. This models the
`s.contains(":")` test plus `s.splitn(2, ":")` in
`impl From<String> for Guid` (src/couchdb/guid.rs): the result is `some`
exactly when the string contains a colon, and the second component keeps any
later colons intact. -/
def splitFirstColon : List Char → Option (List Char × List Char)
  | [] => none
  | c :: cs =>
    if c = ':' then some ([], cs)
    else match splitFirstColon cs with
      | some (p, r) => some (c :: p, r)
      | none => none

/-- `Guid` from src/couchdb/guid.rs: an optional partition tag plus a local id. -/
structure Guid where
  partition : Option String
  id : String
  deriving Repr, DecidableEq

/-- `ToString for Guid` (src/couchdb/guid.rs lines 18-24): `partition:id` when a
partition is present, else just `id`. -/
def Guid.toString (g : Guid) : String :=
  match g.partition with
  | some p => p ++ ":" ++ g.id
  | none => g.id

/-- `From<String> for Guid` (src/couchdb/guid.rs lines 26-44): split on the
first colon when one is present; otherwise the whole string is the id and the
partition is `none`. -/
def Guid.fromString (s : String) : Guid :=
  match splitFirstColon s.data with
  | some (p, i) => { partition := some (String.mk p), id := String.mk i }
  | none => { partition := none, id := s }

/-- A `Guid` is well formed when its partition (if any) contains no colon, and,
when it has no partition, its id contains no colon either; only such guids can
survive the parse/print round trip since parsing always splits at the first
colon. -/
def Guid.WellFormed (g : Guid) : Prop :=
  (∀ p, g.partition = some p → ':' ∉ p.data) ∧
  (g.partition = none → ':' ∉ g.id.data)

theorem splitFirstColon_eq_none_of_not_mem {l : List Char} (h : ':' ∉ l) :
    splitFirstColon l = none := by
  induction l with
  | nil => rfl
  | cons c cs ih =>
    have hc : ¬ c = ':' := fun hh => h (hh ▸ List.mem_cons_self c cs)
    have hcs : ':' ∉ cs := fun hh => h (List.mem_cons_of_mem c hh)
    simp [splitFirstColon, hc, ih hcs]

theorem splitFirstColon_append {p : List Char} (i : List Char) (h : ':' ∉ p) :
    splitFirstColon (p ++ ':' :: i) = some (p, i) := by
  induction p with
  | nil => simp [splitFirstColon]
  | cons c cs ih =>
    have hc : ¬ c = ':' := fun hh => h (hh ▸ List.mem_cons_self c cs)
    have hcs : ':' ∉ cs := fun hh => h (List.mem_cons_of_mem c hh)
    simp [splitFirstColon, hc, ih hcs]

theorem splitFirstColon_sound {l p i : List Char}
    (h : splitFirstColon l = some (p, i)) : l = p ++ ':' :: i := by
  induction l generalizing p i with
  | nil => simp [splitFirstColon] at h
  | cons c cs ih =>
    by_cases hc : c = ':'
    · subst hc
      simp [splitFirstColon] at h
      simp [h.1, h.2]
    · simp only [splitFirstColon, if_neg hc] at h
      cases hsp : splitFirstColon cs with
      | none => simp [hsp] at h
      | some pr =>
        obtain ⟨p0, r0⟩ := pr
        rw [hsp] at h
        simp at h
        obtain ⟨hp, hr⟩ := h
        subst hr
        rw [← hp]
        simp [ih hsp]

theorem string_append_mk (a b : List Char) :
    (String.mk a ++ String.mk b : String) = String.mk (a ++ b) := rfl

theorem guid_toString_mk (p id : String) :
    (Guid.mk (some p) id).toString = String.mk (p.data ++ ':' :: id.data) := by
  show (p ++ ":" ++ id : String) = String.mk (p.data ++ ':' :: id.data)
  cases p with
  | mk pd =>
    cases id with
    | mk idd =>
      show String.mk ((pd ++ [':']) ++ idd) = String.mk (pd ++ ':' :: idd)
      rw [List.append_assoc]
      rfl

theorem guid_fromString_toString (s : String) :
    (Guid.fromString s).toString = s := by
  cases s with
  | mk l =>
    unfold Guid.fromString
    cases hsp : splitFirstColon l with
    | none => rfl
    | some pr =>
      obtain ⟨p, i⟩ := pr
      have hl : l = p ++ ':' :: i := splitFirstColon_sound hsp
      simp only [hsp]
      rw [guid_toString_mk (String.mk p) (String.mk i), hl]

theorem guid_toString_fromString (g : Guid) (h : g.WellFormed) :
    Guid.fromString g.toString = g := by
  obtain ⟨hpart, hnone⟩ := h
  cases g with
  | mk part id =>
    cases part with
    | none =>
      have hid : ':' ∉ id.data := hnone rfl
      show Guid.fromString id = Guid.mk none id
      unfold Guid.fromString
      rw [splitFirstColon_eq_none_of_not_mem hid]
    | some p =>
      have hp : ':' ∉ p.data := hpart p rfl
      rw [guid_toString_mk]
      unfold Guid.fromString
      have hd : (String.mk (p.data ++ ':' :: id.data)).data
          = p.data ++ ':' :: id.data := rfl
      rw [hd, splitFirstColon_append id.data hp]

/-- C4: Guid conversions round-trip: for every string `s`,
`Guid::from(s).to_string() == s`; parsing splits on the first colon only
(`"part:id:id"` gives partition `"part"` and id `"id:id"`, a colon-free string
gives partition `none`); and `parse(to_string(g)) == g` for every well-formed
Guid `g`. -/
theorem guid_roundtrip :
    (∀ s : String, (Guid.fromString s).toString = s) ∧
    (∀ g : Guid, g.WellFormed → Guid.fromString g.toString = g) ∧
    (Guid.fromString "part:id:id").partition = some "part" ∧
    (Guid.fromString "part:id:id").id = "id:id" ∧
    (Guid.fromString "no-colon").partition = none :=
  ⟨guid_fromString_toString, guid_toString_fromString, by decide, by decide,
    by decide⟩

/-- Concrete instance of the round-trip law, discharging the well-formedness
hypothesis at `Guid { partition: "part", id: "id:id" }`. -/
theorem guid_roundtrip_witness :
    Guid.fromString (Guid.toString ⟨some "part", "id:id"⟩) = ⟨some "part", "id:id"⟩ :=
  guid_roundtrip.2.1 ⟨some "part", "id:id"⟩
    ⟨fun p hp => by
      simp only [Option.some.injEq] at hp
      subst hp
      decide, fun h => by simp at h⟩

namespace OAuth

/-- `ErrorKind` from src/oauth/error.rs lines 40-53: the closed protocol error
vocabulary. -/
inductive ErrorKind where
  | AccessDenied
  | InvalidClient
  | InvalidGrant
  | InvalidRedirectUri
  | InvalidRequest
  | InvalidScope
  | ServerError
  | TemporarilyUnavailable
  | UnauthorizedClient
  | Unknown
  | UnsupportedGrantType
  | UnsupportedResponseType
  deriving Repr, DecidableEq

/-- Wire form of each `ErrorKind`: the serde `rename_all = "snake_case"`
serialization from src/oauth/error.rs. -/
def ErrorKind.wire : ErrorKind → String
  | .AccessDenied => "access_denied"
  | .InvalidClient => "invalid_client"
  | .InvalidGrant => "invalid_grant"
  | .InvalidRedirectUri => "invalid_redirect_uri"
  | .InvalidRequest => "invalid_request"
  | .InvalidScope => "invalid_scope"
  | .ServerError => "server_error"
  | .TemporarilyUnavailable => "temporarily_unavailable"
  | .UnauthorizedClient => "unauthorized_client"
  | .Unknown => "unknown"
  | .UnsupportedGrantType => "unsupported_grant_type"
  | .UnsupportedResponseType => "unsupported_response_type"

/-- `Error` from src/oauth/error.rs lines 5-11: kind, human description and an
optional error URI. There is no state field. -/
structure Error where
  error : ErrorKind
  error_description : String
  error_uri : Option String
  deriving Repr, DecidableEq

/-- `Error::new` from src/oauth/error.rs lines 14-20. -/
def Error.new (kind : ErrorKind) (description : String) : Error :=
  { error := kind, error_description := description, error_uri := none }

/-- `Error::kind` accessor from src/oauth/error.rs lines 22-24. -/
def Error.kind (e : Error) : ErrorKind := e.error

/-- `Debug for ErrorKind` (src/oauth/error.rs lines 55-62) prints the
serde_json string of the kind, which keeps the JSON quotes. -/
def ErrorKind.debugStr (k : ErrorKind) : String := "\"" ++ k.wire ++ "\""

/-- `Display for Error` (src/oauth/error.rs lines 32-36):
`"{error}: {error_description}"`, where `Display for ErrorKind` delegates to
its Debug (JSON-quoted) form. -/
def Error.display (e : Error) : String :=
  e.error.debugStr ++ ": " ++ e.error_description

end OAuth

/-- Splits a character list into maximal space-free chunks, dropping empty
chunks; `acc` holds the current chunk reversed. Used to turn the
space-separated scope wire form into its token set. -/
def splitSpacesAux : List Char → List Char → List String
  | acc, [] => if acc.isEmpty then [] else [String.mk acc.reverse]
  | acc, c :: cs =>
    if c = ' ' then
      if acc.isEmpty then splitSpacesAux [] cs
      else String.mk acc.reverse :: splitSpacesAux [] cs
    else splitSpacesAux (c :: acc) cs

/-- Modelled from the spec: `Scope` (crate::oauth::scope, whose source file is
not under src/) is "an unordered set of permission tokens serialized as a
single space-separated string" (spec section 3). -/
structure Scope where
  tokens : List String
  deriving Repr, DecidableEq

/-- Modelled from the spec: `Scope::from(&str)` parses the space-separated
wire form; the empty string carries no tokens. -/
def Scope.fromString (s : String) : Scope :=
  { tokens := splitSpacesAux [] s.data }

/-- Modelled from the spec: `Scope::from(Vec<&str>)` collects the listed
tokens. -/
def Scope.fromList (l : List String) : Scope := { tokens := l }

/-- Modelled from the spec: `Scope::to_string` re-serializes the token set as
a single space-separated string. -/
def Scope.toString (s : Scope) : String := String.intercalate " " s.tokens

/-- Modelled from the spec: `Scope::matches(required, granted)` (the receiver
is the required scope, as in `Scope::from("users:read").matches(&scope)` in
src/http/handler/user.rs) "fails with `InvalidScope` iff the required scope is
not a subset of the granted scope; it has no side effects" (spec sections 3,
4.1, 8). Membership is set membership of whole tokens, not string
comparison. -/
def Scope.matches (required granted : Scope) : Except OAuth.Error Unit :=
  if ∀ t ∈ required.tokens, t ∈ granted.tokens then .ok ()
  else .error (OAuth.Error.new .InvalidScope "insufficient scope")

/-- C3: `A.matches(B)` succeeds iff every permission token of the required
scope `A` is a member of the granted scope `B`; any failure carries kind
`InvalidScope`; the empty required scope matches any granted scope; a
non-empty required scope fails against the empty granted scope. (`matches` is
a pure function in this embedding, so it has no side effects by
construction.) -/
theorem scope_matches_subset_law :
    (∀ A B : Scope, A.matches B = .ok () ↔ ∀ t ∈ A.tokens, t ∈ B.tokens) ∧
    (∀ A B : Scope, A.matches B ≠ .ok () →
      A.matches B = .error (OAuth.Error.new .InvalidScope "insufficient scope")) ∧
    (∀ B : Scope, (Scope.fromString "").matches B = .ok ()) ∧
    (Scope.fromString "x").matches (Scope.fromString "") =
      .error (OAuth.Error.new .InvalidScope "insufficient scope") := by
  refine ⟨fun A B => ?_, fun A B h => ?_, fun B => ?_, rfl⟩
  · unfold Scope.matches
    split <;> simp_all
  · unfold Scope.matches at h ⊢
    split at h <;> simp_all
  · unfold Scope.matches
    have : (Scope.fromString "").tokens = [] := rfl
    rw [this]
    simp

/-- Concrete instance of the subset law: `"users:read"` is granted when the
session scope contains that token. -/
theorem scope_matches_subset_law_witness :
    (Scope.fromList ["users:read"]).matches
      (Scope.fromList ["profile", "users:read"]) = .ok () :=
  (scope_matches_subset_law.1 _ _).mpr (by decide)

/-- Minimal model of the url crate's `Url` (an external collaborator, spec
section 1): a base (scheme, host and path) plus an optional query, kept
structured as key-value pairs. The handlers only exercise `set_query` and
`to_string`. -/
structure Url where
  base : String
  query : Option (List (String × String))
  deriving Repr, DecidableEq

/-- `Url::set_query` replaces the whole query. -/
def Url.setQuery (u : Url) (q : Option (List (String × String))) : Url :=
  { u with query := q }

/-- The two response shapes produced by the `login` handler
(src/handlers/oauth/mod.rs): a redirect (`responses::redirect_to`) or a direct
`400 Bad Request` body. -/
inductive HttpResponse where
  | redirect (location : Url)
  | badRequest (body : String)
  deriving Repr, DecidableEq

/-- `serde_urlencoded::to_string` of `oauth::error::Error`, as key-value
pairs: field order `error`, `error_description`, then `error_uri` only when
present (`skip_serializing_if = "Option::is_none"`). The struct has no state
field, so no `state` pair can ever appear. -/
def serializeError (e : OAuth.Error) : List (String × String) :=
  [("error", e.error.wire), ("error_description", e.error_description)] ++
    (match e.error_uri with
      | some u => [("error_uri", u)]
      | none => [])

/-- `AuthorizationCode` modelled from the spec (crate::oauth::code is not
under src/), spec section 3. -/
structure AuthorizationCode where
  signature : String
  client_id : String
  redirect_uri : String
  scope : Scope
  user_id : String
  expires_at : Nat
  deriving Repr, DecidableEq

/-- `AuthorizationResponse` from src/oauth/response.rs lines 11-16: the issued
code plus the state echoed from the request (skipped when absent). -/
structure AuthorizationResponse where
  code : AuthorizationCode
  state : Option String
  deriving Repr, DecidableEq

/-- Serialization of `AuthorizationResponse` to query pairs. Modelled from the
spec for the code component (spec section 6: query parameters `code`,
`state?`); the state skipping mirrors `skip_serializing_if` in
src/oauth/response.rs. -/
def serializeAuthorizationResponse (r : AuthorizationResponse) :
    List (String × String) :=
  [("code", r.code.signature)] ++
    (match r.state with
      | some s => [("state", s)]
      | none => [])

/-- `redirect_back` from src/handlers/oauth/mod.rs lines 83-89: serialize the
payload, set it as the redirect URI's query, and respond with a redirect to
the resulting URL. -/
def redirect_back (redirect_uri : Url) (data : List (String × String)) :
    HttpResponse :=
  .redirect (redirect_uri.setQuery (some data))

/-- `login` (POST /oauth/authorize) from src/handlers/oauth/mod.rs lines
58-70, as a function of the awaited `validate`-then-`handle` result and of the
result of `Url::parse(&auth.redirect_uri)`. The source calls `.unwrap()` on
the parse result before inspecting the handler outcome, so a failed parse is
a panic, modelled as `none`. On success: redirect back with the serialized
response; on error: `invalid_redirect_uri` becomes a direct 400 body, every
other kind is redirected back with the serialized error. -/
def login (handle : Except OAuth.Error AuthorizationResponse)
    (parsedUrl : Option Url) : Option HttpResponse :=
  match parsedUrl with
  | none => none
  | some url =>
    some (match handle with
      | .ok res => redirect_back url (serializeAuthorizationResponse res)
      | .error err =>
        match err.kind with
        | .InvalidRedirectUri => .badRequest err.display
        | _ => redirect_back url (serializeError err))

/-- `LoginForm` template data, as populated in src/handlers/oauth/mod.rs
lines 49-55. -/
structure LoginForm where
  response_type : String
  client_id : String
  redirect_uri : String
  scope : String
  state : String
  deriving Repr, DecidableEq

/-- `AuthorizationRequest` modelled from the spec (crate::oauth::request is
not under src/), spec section 6. -/
structure AuthorizationRequest where
  response_type : String
  client_id : String
  redirect_uri : String
  scope : Scope
  state : Option String
  deriving Repr, DecidableEq

/-- `login_form` (GET /oauth/authorize) from src/handlers/oauth/mod.rs lines
38-56, as a function of the awaited `validate` result: a validation error is
only logged (`log::error!`) and discarded, then the form is always rendered
from the request fields, with a missing state defaulting to the empty
string. -/
def login_form (validateResult : Except OAuth.Error Unit)
    (auth : AuthorizationRequest) : LoginForm :=
  match validateResult with
  | .ok _ => { response_type := auth.response_type, client_id := auth.client_id,
               redirect_uri := auth.redirect_uri, scope := auth.scope.toString,
               state := auth.state.getD "" }
  | .error _ => { response_type := auth.response_type, client_id := auth.client_id,
                  redirect_uri := auth.redirect_uri, scope := auth.scope.toString,
                  state := auth.state.getD "" }

/-- `TokenRequest` modelled from the spec (crate::oauth::request is not under
src/), spec section 6. -/
structure TokenRequest where
  grant_type : String
  code : String
  redirect_uri : String
  client_id : String
  deriving Repr, DecidableEq

/-- `TokenType` from src/oauth/response.rs lines 37-41. -/
inductive TokenType where
  | Bearer
  deriving Repr, DecidableEq

/-- `TokenResponse` from src/oauth/response.rs lines 27-35. -/
structure TokenResponse where
  access_token : String
  token_type : TokenType
  expires_in : Nat
  refresh_token : Option String
  scope : Scope
  deriving Repr, DecidableEq

/-- `ApiError` stands for crate::errors::ApiError (not under src/); the token
stub never produces one. -/
structure ApiError where
  message : String
  deriving Repr, DecidableEq

/-- `token` (POST /oauth/token) from src/handlers/oauth/mod.rs lines 72-81:
the body ignores the request entirely and returns a fixed successful
`TokenResponse`. -/
def token (_req : TokenRequest) : Except ApiError TokenResponse :=
  .ok { access_token := "access_token", token_type := .Bearer,
        expires_in := 3600, refresh_token := none,
        scope := Scope.fromList ["profile", "email"] }

/-- `Client` modelled from the spec (crate::oauth::client is not under src/),
spec section 3: id, optional secret (confidential iff present), allowed
scope, and the registered redirect URI set. -/
structure Client where
  client_id : String
  client_secret : Option String
  allowed_scope : Scope
  redirect_uris : List String
  deriving Repr, DecidableEq

/-- Modelled from the spec: `OAuthHandler::validate` (crate::oauth::handler is
not under src/), spec section 4.5. Checks in order, short-circuiting:
client resolution (`invalid_client`), exact membership of the redirect URI in
the client's registered set (`invalid_redirect_uri`), supported response type
`code` (`unsupported_response_type`), and requested scope within the allowed
scope (`invalid_scope` via `Scope::matches`). The client lookup
(`ClientStorage::get_client`) is passed as a function. -/
def validate (clients : String → Option Client) (req : AuthorizationRequest) :
    Except OAuth.Error Unit :=
  match clients req.client_id with
  | none => .error (OAuth.Error.new .InvalidClient "client not found")
  | some client =>
    if req.redirect_uri ∈ client.redirect_uris then
      if req.response_type = "code" then
        req.scope.matches client.allowed_scope
      else
        .error (OAuth.Error.new .UnsupportedResponseType
          "unsupported response type")
    else
      .error (OAuth.Error.new .InvalidRedirectUri "invalid redirect uri")

theorem login_error_not_iru (err : OAuth.Error) (url : Url)
    (h : err.error ≠ .InvalidRedirectUri) :
    login (.error err) (some url) =
      some (.redirect (url.setQuery (some (serializeError err)))) := by
  obtain ⟨k, d, u⟩ := err
  cases k <;> first
    | exact absurd rfl h
    | rfl

/-- Default public client registered by bootstrap, used as a concrete
example. -/
def exClient : Client :=
  { client_id := "enseada", client_secret := none,
    allowed_scope := Scope.fromList ["profile"],
    redirect_uris := ["https://host/ui/auth/callback"] }

/-- Concrete client lookup resolving only the default client. -/
def exClients : String → Option Client :=
  fun cid => if cid = "enseada" then some exClient else none

/-- Concrete authorization request whose redirect URI is not registered for
the client. -/
def exAuthBadRedirect : AuthorizationRequest :=
  { response_type := "code", client_id := "enseada",
    redirect_uri := "https://evil.example/cb",
    scope := Scope.fromList ["profile"], state := some "xyz" }

/-- The parse of the unregistered redirect URI above. -/
def exUrl : Url := { base := "https://evil.example/cb", query := none }

/-- C1: when the request's redirect_uri is not registered for the resolved
client, `validate` fails with kind `invalid_redirect_uri` and `login` renders
a direct 400 body, never a redirect; every other error kind coming out of
validate/handle is delivered as a redirect to the request's redirect_uri. -/
theorem unregistered_redirect_never_redirected :
    (∀ (clients : String → Option Client) (auth : AuthorizationRequest)
      (client : Client) (handleRes : Except OAuth.Error AuthorizationResponse)
      (url : Url),
      clients auth.client_id = some client →
      auth.redirect_uri ∉ client.redirect_uris →
      validate clients auth =
        .error (OAuth.Error.new .InvalidRedirectUri "invalid redirect uri") ∧
      login ((validate clients auth).bind fun _ => handleRes) (some url) =
        some (.badRequest
          (OAuth.Error.new .InvalidRedirectUri "invalid redirect uri").display)) ∧
    (∀ (err : OAuth.Error) (url : Url), err.kind ≠ .InvalidRedirectUri →
      login (.error err) (some url) =
        some (.redirect (url.setQuery (some (serializeError err))))) := by
  constructor
  · intro clients auth client handleRes url hc hnr
    have hv : validate clients auth =
        .error (OAuth.Error.new .InvalidRedirectUri "invalid redirect uri") := by
      unfold validate
      rw [hc]
      simp [hnr]
    refine ⟨hv, ?_⟩
    rw [hv]
    rfl
  · exact fun err url h => login_error_not_iru err url h

/-- Concrete instance of C1: the default client with an unregistered
`https://evil.example/cb` redirect URI gets a direct 400 response. -/
theorem unregistered_redirect_never_redirected_witness :
    validate exClients exAuthBadRedirect =
      .error (OAuth.Error.new .InvalidRedirectUri "invalid redirect uri") ∧
    login ((validate exClients exAuthBadRedirect).bind
        fun _ => (.error (OAuth.Error.new .ServerError "boom"))) (some exUrl) =
      some (.badRequest
        (OAuth.Error.new .InvalidRedirectUri "invalid redirect uri").display) :=
  unregistered_redirect_never_redirected.1 exClients exAuthBadRedirect exClient
    (.error (OAuth.Error.new .ServerError "boom")) exUrl rfl (by decide)

/-- C2 evidence: the `token` handler in src/handlers/oauth/mod.rs lines 72-81
is a fixed stub that succeeds with the same hard-coded `TokenResponse` for
every request — in particular a second token request replaying an
already-used authorization code also succeeds, and no request ever fails with
`invalid_grant`, contradicting the write-once-code claim (which the spec
sections 4.5 and 9 mark as the authoritative intended behavior over this
stub). -/
theorem token_stub_always_succeeds :
    ∀ req : TokenRequest, token req =
      .ok { access_token := "access_token", token_type := .Bearer,
            expires_in := 3600, refresh_token := none,
            scope := Scope.fromList ["profile", "email"] } :=
  fun _ => rfl

/-- C6 counterexample: an `invalid_scope` error produced for a request whose
state was `"xyz"` is redirected with query parameters `error` and
`error_description` only — no `state` parameter is ever echoed, because
`oauth::error::Error` has no state field. -/
theorem error_redirect_state_counterexample :
    login (.error (OAuth.Error.new .InvalidScope "scope exceeds allowed"))
        (some (Url.mk "https://client.example/cb" none)) =
      some (.redirect (Url.mk "https://client.example/cb"
        (some [("error", "invalid_scope"),
               ("error_description", "scope exceeds allowed")]))) ∧
    "state" ∉ ([("error", "invalid_scope"),
                ("error_description", "scope exceeds allowed")].map
                  (fun p : String × String => p.1)) :=
  ⟨rfl, by decide⟩

/-- C6 as amended: for every OAuthError other than `invalid_redirect_uri`,
the error redirect's query string consists of the parameters `error` and
`error_description`, plus `error_uri` exactly when one is set; the request's
state is not included. -/
theorem error_redirect_query_contents :
    ∀ (err : OAuth.Error) (url : Url), err.kind ≠ .InvalidRedirectUri →
      login (.error err) (some url) =
        some (.redirect (url.setQuery (some (serializeError err)))) ∧
      ("error", err.error.wire) ∈ serializeError err ∧
      ("error_description", err.error_description) ∈ serializeError err ∧
      (serializeError err).map (fun p => p.1) =
        ["error", "error_description"] ++
          (match err.error_uri with
            | some _ => ["error_uri"]
            | none => []) ∧
      "state" ∉ (serializeError err).map (fun p => p.1) := by
  intro err url h
  refine ⟨login_error_not_iru err url h, ?_, ?_, ?_, ?_⟩
  · simp [serializeError]
  · simp [serializeError]
  · obtain ⟨k, d, u⟩ := err
    cases u <;> rfl
  · obtain ⟨k, d, u⟩ := err
    cases u <;> simp [serializeError]

/-- Concrete instance of the amended C6 at an `invalid_grant` error. -/
theorem error_redirect_query_contents_witness :
    login (.error (OAuth.Error.new .InvalidGrant "code already used"))
        (some (Url.mk "https://client.example/cb" none)) =
      some (.redirect ((Url.mk "https://client.example/cb" none).setQuery
        (some (serializeError
          (OAuth.Error.new .InvalidGrant "code already used"))))) :=
  (error_redirect_query_contents
    (OAuth.Error.new .InvalidGrant "code already used")
    (Url.mk "https://client.example/cb" none) (by decide)).1

/-- C9: `login` completes (returns a response) exactly when
`Url::parse(&auth.redirect_uri)` succeeded — the unwrap runs before the
success/error classification, so even the `invalid_redirect_uri` path, whose
response does not use the parsed URL, panics on an unparseable
redirect_uri. -/
theorem login_unwraps_redirect_uri_before_classifying :
    (∀ (handle : Except OAuth.Error AuthorizationResponse)
      (parsedUrl : Option Url),
      (login handle parsedUrl).isSome = parsedUrl.isSome) ∧
    (∀ d : String,
      login (.error (OAuth.Error.new .InvalidRedirectUri d)) none = none) := by
  constructor
  · intro handle p
    cases p <;> rfl
  · intro d
    rfl

/-- C10: `login_form` ignores the validation outcome — the error is only
logged — and always returns the login form populated from the request fields,
so no validation failure is reported to the caller at this step. -/
theorem login_form_ignores_validation_failure :
    ∀ (v w : Except OAuth.Error Unit) (auth : AuthorizationRequest),
      login_form v auth = login_form w auth ∧
      login_form v auth =
        { response_type := auth.response_type, client_id := auth.client_id,
          redirect_uri := auth.redirect_uri, scope := auth.scope.toString,
          state := auth.state.getD "" } := by
  intro v w auth
  cases v <;> cases w <;> exact ⟨rfl, rfl⟩

namespace Couch

/-- `couchdb::error::Error` modelled from the spec (src/couchdb/error.rs is
not under src/): the typed `NotFound` and `Conflict` conditions named by the
translation arms in src/couchdb/db.rs, plus a generic storage error wrapping
any other backend failure (`Error::from(err)`), spec sections 4.4 and 7. The
generic variant records the HTTP status of the underlying failure, when
any. -/
inductive Error where
  | NotFound (message : String)
  | Conflict (message : String)
  | Generic (status : Option Nat)
  deriving Repr, DecidableEq

end Couch

/-- A failed backend HTTP call (a reqwest error): `status` is the HTTP status
code when the failure is HTTP-shaped (`err.status()`), `none` for pure
network failures. -/
structure ReqErr where
  status : Option Nat
  deriving Repr, DecidableEq

/-- `PutResponse` (crate::couchdb::responses); only its `ok` flag is used by
the migration code. -/
structure PutResponse where
  ok : Bool
  deriving Repr, DecidableEq

/-- `Database` from src/couchdb/db.rs lines 19-23 (the shared client handle
is left implicit: each operation takes its backend call's result). -/
structure Database where
  name : String
  partitioned : Bool
  deriving Repr, DecidableEq

/-- `Database::get` from src/couchdb/db.rs lines 48-56, as a function of the
backend call result: a 404-shaped failure becomes the typed `NotFound`
condition, any other failure becomes the generic storage error. -/
def Database.get {α : Type} (db : Database) (id : String)
    (res : Except ReqErr α) : Except Couch.Error α :=
  match res with
  | .ok v => .ok v
  | .error err =>
    if err.status = some 404 then
      .error (.NotFound
        ("document " ++ id ++ " not found in database " ++ db.name))
    else
      .error (.Generic err.status)

/-- `Database::put` from src/couchdb/db.rs lines 58-66, as a function of the
backend call result: a 409-shaped failure becomes the typed `Conflict`
condition, any other failure becomes the generic storage error. -/
def Database.put (db : Database) (id : String)
    (res : Except ReqErr PutResponse) : Except Couch.Error PutResponse :=
  match res with
  | .ok v => .ok v
  | .error err =>
    if err.status = some 409 then
      .error (.Conflict
        ("document " ++ id ++ " already exists in database " ++ db.name))
    else
      .error (.Generic err.status)

/-- C5: a read failing with an HTTP-404-shaped response yields the typed
not-found condition, a write failing with an HTTP-409-shaped response yields
the typed `Conflict` condition, and every other network or backend failure
propagates as the generic storage error on both paths. -/
theorem backend_failure_translation :
    (∀ (db : Database) (id : String) (e : ReqErr), e.status = some 404 →
      db.get id (.error e : Except ReqErr PutResponse) =
        .error (.NotFound
          ("document " ++ id ++ " not found in database " ++ db.name))) ∧
    (∀ (db : Database) (id : String) (e : ReqErr), e.status ≠ some 404 →
      db.get id (.error e : Except ReqErr PutResponse) =
        .error (.Generic e.status)) ∧
    (∀ (db : Database) (id : String) (e : ReqErr), e.status = some 409 →
      db.put id (.error e) =
        .error (.Conflict
          ("document " ++ id ++ " already exists in database " ++ db.name))) ∧
    (∀ (db : Database) (id : String) (e : ReqErr), e.status ≠ some 409 →
      db.put id (.error e) = .error (.Generic e.status)) := by
  refine ⟨fun db id e h => ?_, fun db id e h => ?_,
    fun db id e h => ?_, fun db id e h => ?_⟩ <;>
    simp [Database.get, Database.put, h]

/-- Concrete instances of the failure translation: a 404 read becomes
`NotFound`, a 409 write becomes `Conflict`, and a connection failure without
an HTTP status stays generic on the write path. -/
theorem backend_failure_translation_witness :
    (Database.mk "oauth" true).get "oauth:enseada"
        (.error ⟨some 404⟩ : Except ReqErr PutResponse) =
      .error (.NotFound
        "document oauth:enseada not found in database oauth") ∧
    (Database.mk "oauth" true).put "oauth:enseada" (.error ⟨some 409⟩) =
      .error (.Conflict
        "document oauth:enseada already exists in database oauth") ∧
    (Database.mk "oauth" true).put "oauth:enseada" (.error ⟨none⟩) =
      .error (.Generic none) :=
  ⟨backend_failure_translation.1 (Database.mk "oauth" true) "oauth:enseada"
      ⟨some 404⟩ rfl,
    backend_failure_translation.2.2.1 (Database.mk "oauth" true)
      "oauth:enseada" ⟨some 409⟩ rfl,
    backend_failure_translation.2.2.2 (Database.mk "oauth" true)
      "oauth:enseada" ⟨none⟩ (by decide)⟩

/-- `create_db_if_not_exist` from src/couchdb/migrate.rs lines 40-48, as a
function of the results of its two backend calls: when `get_self` succeeds
(the database exists) it returns `Ok(true)` without creating; otherwise it
returns the `create_self` result unchanged — including any failure of the
create call itself. -/
def create_db_if_not_exist (getSelfOk : Bool)
    (createRes : Except Couch.Error Bool) : Except Couch.Error Bool :=
  if getSelfOk then .ok true else createRes

/-- `create_oauth_client` from src/couchdb/migrate.rs lines 50-61, as a
function of its backend call results: an `exists` failure propagates; when
the client document exists it skips with `Ok(true)`; otherwise it returns the
`put` result mapped to its `ok` flag — a `put` failure propagates
unchanged. -/
def create_oauth_client (existsRes : Except Couch.Error Bool)
    (putRes : Except Couch.Error PutResponse) : Except Couch.Error Bool :=
  match existsRes with
  | .error e => .error e
  | .ok true => .ok true
  | .ok false => putRes.map (fun r => r.ok)

/-- C8 counterexample: when the existence probe reports absence but the
creation call itself fails because the target already exists (a racing
create), both bootstrap steps return that conflict as an error — the
already-exists failure of the creation step is NOT treated as success. -/
theorem create_conflict_propagates_counterexample :
    create_db_if_not_exist false
        (.error (.Generic (some 412))) =
      .error (.Generic (some 412)) ∧
    create_oauth_client (.ok false)
        (.error (.Conflict
          "document oauth:enseada already exists in database oauth")) =
      .error (.Conflict
        "document oauth:enseada already exists in database oauth") :=
  ⟨rfl, rfl⟩

/-- C8 as amended: bootstrap tolerates pre-existence only through the probe —
when `get_self` (for databases) or `exists` (for the client document) reports
the target present, creation is skipped and success returned; but a failure
of the creation call itself, including an already-exists conflict after a
racing create, propagates as an error. -/
theorem preexistence_tolerated_only_via_probe :
    (∀ createRes, create_db_if_not_exist true createRes = .ok true) ∧
    (∀ putRes, create_oauth_client (.ok true) putRes = .ok true) ∧
    (∀ e, create_db_if_not_exist false (.error e) = .error e) ∧
    (∀ e, create_oauth_client (.ok false) (.error e) = .error e) :=
  ⟨fun _ => rfl, fun _ => rfl, fun _ => rfl, fun _ => rfl⟩

/-- State of the document store (spec section 6 storage backend): the set of
existing databases and the set of existing documents, a document being
addressed by its database name and its id. -/
structure CouchState where
  dbs : List String
  docs : List (String × String)
  deriving Repr, DecidableEq

/-- Backend semantics of `get_self` (CouchDB `GET /{db}`): succeeds exactly
when the database exists. -/
def stateGetSelfOk (s : CouchState) (db : Database) : Prop := db.name ∈ s.dbs

instance (s : CouchState) (db : Database) : Decidable (stateGetSelfOk s db) :=
  inferInstanceAs (Decidable (db.name ∈ s.dbs))

/-- Backend semantics of `create_self` (CouchDB `PUT /{db}`): fails when the
database already exists (HTTP 412), otherwise records it. -/
def stateCreateSelf (s : CouchState) (db : Database) :
    Except Couch.Error (CouchState × Bool) :=
  if db.name ∈ s.dbs then .error (.Generic (some 412))
  else .ok ({ s with dbs := db.name :: s.dbs }, true)

/-- Backend semantics of `Database::exists` (HEAD probe): whether the
document is present. -/
def stateExists (s : CouchState) (db : Database) (id : String) : Prop :=
  (db.name, id) ∈ s.docs

instance (s : CouchState) (db : Database) (id : String) :
    Decidable (stateExists s db id) :=
  inferInstanceAs (Decidable ((db.name, id) ∈ s.docs))

/-- Backend semantics of `Database::put` against the store state: conflict
when the document already exists, otherwise record it (write-once,
spec sections 4.4 and 5). -/
def statePut (s : CouchState) (db : Database) (id : String) :
    Except Couch.Error (CouchState × PutResponse) :=
  if (db.name, id) ∈ s.docs then
    .error (.Conflict
      ("document " ++ id ++ " already exists in database " ++ db.name))
  else .ok ({ s with docs := (db.name, id) :: s.docs }, ⟨true⟩)

/-- `create_db_if_not_exist` from src/couchdb/migrate.rs lines 40-48,
executed against the store state. -/
def create_db_if_not_exist_state (s : CouchState) (db : Database) :
    Except Couch.Error (CouchState × Bool) :=
  if stateGetSelfOk s db then .ok (s, true) else stateCreateSelf s db

/-- Storage key of the default public client: modelled from the spec,
`ClientEntity::build_guid` (crate::oauth::persistence is not under src/)
builds `Guid{partition: "oauth", id: client_id}` (spec section 3). -/
def clientDocKey : String := (Guid.mk (some "oauth") "enseada").toString

/-- `create_oauth_client` from src/couchdb/migrate.rs lines 50-61, executed
against the store state: probe the client document's storage key with
`exists`, skip when present, otherwise `put` the entity document. -/
def create_oauth_client_state (s : CouchState) (db : Database)
    (clientId : String) : Except Couch.Error (CouchState × Bool) :=
  let key := (Guid.mk (some "oauth") clientId).toString
  if stateExists s db key then .ok (s, true)
  else (statePut s db key).map (fun p => (p.1, p.2.ok))

/-- The `oauth` partitioned database provisioned by `run`
(src/couchdb/migrate.rs line 24). -/
def oauthDb : Database := { name := "oauth", partitioned := true }

/-- The `users` partitioned database provisioned by `run`
(src/couchdb/migrate.rs line 27). -/
def usersDb : Database := { name := "users", partitioned := true }

/-- `run` from src/couchdb/migrate.rs lines 21-38, executed against the store
state: ensure the `oauth` and `users` databases, then ensure the default
public client `"enseada"`; each `?` propagates a failure. -/
def migrateRun (s : CouchState) : Except Couch.Error CouchState :=
  match create_db_if_not_exist_state s oauthDb with
  | .error e => .error e
  | .ok (s, _) =>
    match create_db_if_not_exist_state s usersDb with
    | .error e => .error e
    | .ok (s, _) =>
      match create_oauth_client_state s oauthDb "enseada" with
      | .error e => .error e
      | .ok (s, _) => .ok s

/-- Number of documents stored under the default client's storage key in the
`oauth` database. -/
def clientDocCount (s : CouchState) : Nat :=
  s.docs.count ("oauth", clientDocKey)

theorem cdb_state_mem {s : CouchState} {db : Database} (h : db.name ∈ s.dbs) :
    create_db_if_not_exist_state s db = .ok (s, true) := by
  simp [create_db_if_not_exist_state, stateGetSelfOk, h]

theorem cdb_state_not_mem {s : CouchState} {db : Database}
    (h : db.name ∉ s.dbs) :
    create_db_if_not_exist_state s db =
      .ok ({ s with dbs := db.name :: s.dbs }, true) := by
  simp [create_db_if_not_exist_state, stateGetSelfOk, stateCreateSelf, h]

theorem coc_state_present {s : CouchState} {db : Database} {cid : String}
    (h : (db.name, (Guid.mk (some "oauth") cid).toString) ∈ s.docs) :
    create_oauth_client_state s db cid = .ok (s, true) := by
  simp [create_oauth_client_state, stateExists, h]

theorem coc_state_absent {s : CouchState} {db : Database} {cid : String}
    (h : (db.name, (Guid.mk (some "oauth") cid).toString) ∉ s.docs) :
    create_oauth_client_state s db cid =
      .ok ({ s with
        docs := (db.name, (Guid.mk (some "oauth") cid).toString) :: s.docs },
        true) := by
  simp [create_oauth_client_state, stateExists, statePut, h]
  rfl

theorem cdb_state_ok (s : CouchState) (db : Database) :
    ∃ sa, create_db_if_not_exist_state s db = .ok (sa, true) ∧
      sa.docs = s.docs ∧ db.name ∈ sa.dbs ∧ ∀ n, n ∈ s.dbs → n ∈ sa.dbs := by
  by_cases h : db.name ∈ s.dbs
  · exact ⟨s, cdb_state_mem h, rfl, h, fun n hn => hn⟩
  · exact ⟨{ s with dbs := db.name :: s.dbs }, cdb_state_not_mem h, rfl,
      List.mem_cons_self _ _, fun n hn => List.mem_cons_of_mem _ hn⟩

/-- C7: bootstrap is idempotent. Against any store that does not yet hold the
default client's document (probed via `exists` on its storage key
`"oauth:enseada"` before any write), the first run succeeds and leaves
exactly one document under that key, and a second run succeeds without
changing the store at all. -/
theorem migrate_idempotent :
    ∀ s0 : CouchState, clientDocCount s0 = 0 →
      ∃ s1, migrateRun s0 = .ok s1 ∧ clientDocCount s1 = 1 ∧
        migrateRun s1 = .ok s1 := by
  intro s0 h0
  obtain ⟨sa, ha, hadocs, haoauth, hamem⟩ := cdb_state_ok s0 oauthDb
  obtain ⟨sb, hb, hbdocs, hbusers, hbmem⟩ := cdb_state_ok sa usersDb
  have hkey : ("oauth", clientDocKey) ∉ s0.docs := by
    intro hmem
    have hpos := List.count_pos_iff.mpr hmem
    unfold clientDocCount at h0
    omega
  have hnotin :
      (oauthDb.name, (Guid.mk (some "oauth") "enseada").toString) ∉ sb.docs := by
    rw [hbdocs, hadocs]
    exact hkey
  have hc := coc_state_absent hnotin
  refine ⟨{ sb with docs := ("oauth", clientDocKey) :: sb.docs }, ?_, ?_, ?_⟩
  · simp only [migrateRun, ha, hb, hc]
    rfl
  · show (("oauth", clientDocKey) :: sb.docs).count ("oauth", clientDocKey) = 1
    rw [List.count_cons_self, hbdocs, hadocs]
    unfold clientDocCount at h0
    omega
  · have ha2 : create_db_if_not_exist_state
        { sb with docs := ("oauth", clientDocKey) :: sb.docs } oauthDb =
        .ok ({ sb with docs := ("oauth", clientDocKey) :: sb.docs }, true) :=
      cdb_state_mem (hbmem _ haoauth)
    have hb2 : create_db_if_not_exist_state
        { sb with docs := ("oauth", clientDocKey) :: sb.docs } usersDb =
        .ok ({ sb with docs := ("oauth", clientDocKey) :: sb.docs }, true) :=
      cdb_state_mem hbusers
    have hc2 : create_oauth_client_state
        { sb with docs := ("oauth", clientDocKey) :: sb.docs } oauthDb
        "enseada" =
        .ok ({ sb with docs := ("oauth", clientDocKey) :: sb.docs }, true) :=
      coc_state_present (List.mem_cons_self _ _)
    simp only [migrateRun, ha2, hb2, hc2]

/-- Concrete instance of bootstrap idempotency, starting from the empty
store. -/
theorem migrate_idempotent_witness :
    ∃ s1, migrateRun ⟨[], []⟩ = .ok s1 ∧ clientDocCount s1 = 1 ∧
      migrateRun s1 = .ok s1 :=
  migrate_idempotent ⟨[], []⟩ rfl

end Enseada
